import Mathlib

/-! FwInstaller, WIX Helper DLL: `Get Older FW Version.cpp`

A shallow embedding of the custom action `GetHighestDbMigrationVersion` and
theorems about it.

Modelling conventions.

* A zero-terminated `_TCHAR` string is a `String`; the terminator is implicit, so
  `psz[0] == 0` is "the string is empty" and `_tcslen` is `String.length`.
* `hInstall` stands for the property table of the installer session: a function from
  property names to values.  `MsiGetProperty` copies the value into a buffer of `cch`
  elements, so at most `cch - 1` characters arrive; a property that is not set reads as
  the empty string.
* `unsigned int` and `size_t` arithmetic is arithmetic on `Nat` modulo `2 ^ 32`.
* `FileExists` is declared `extern` in the source file; it is a parameter of the model.
  Its answer is `some true`, `some false`, or `none` when the call raises an exception.
* The effects of a call are recorded in a `Session`: the property table, the list of
  `MsiSetProperty` calls and the list of `FileExists` calls, both in program order.
-/

namespace FwInstaller

/-! ## Constants of the source -/

/-- The value of `ERROR_SUCCESS` in `winerror.h`. -/
def ERROR_SUCCESS : Nat := 0

/-- Source: `const int kcchStringBufLen = 2048;` -/
def kcchStringBufLen : Nat := 2048

/-- Source: `const size_t kFileNameLength = 19;` -/
def kFileNameLength : Nat := 19

/-- Source: `const size_t kDataMigVersion = 7;` -/
def kDataMigVersion : Nat := 7

/-- Number of values of `unsigned int` and of `size_t` on the 32-bit target. -/
def wordModulus : Nat := 4294967296

/-- Unsigned subtraction `a - b` of two machine words: the difference of the integers,
reduced modulo `2 ^ 32`. -/
def wordSub (a b : Nat) : Nat := (((a : Int) - (b : Int)) % (wordModulus : Int)).toNat

/-- Unsigned increment `a++` of a machine word. -/
def wordInc (a : Nat) : Nat := (a + 1) % wordModulus

/-! ## The installer session -/

/-- The property table behind an `MSIHANDLE`. -/
abbrev MSIHANDLE := String → String

/-- Everything a call can observe or change. -/
structure Session where
  /-- Current property table. -/
  props : MSIHANDLE
  /-- Calls of `MsiSetProperty` so far, as (name, value), oldest first. -/
  writes : List (String × String)
  /-- Calls of `FileExists` so far, as (directory, file name), oldest first. -/
  checks : List (String × String)

/-- The session at entry: nothing written, nothing checked. -/
def Session.start (hInstall : MSIHANDLE) : Session :=
  { props := hInstall, writes := [], checks := [] }

/-- `MsiGetProperty(hInstall, szName, buf, &cch)`: the string left in a buffer of `cch`
elements. -/
def MsiGetProperty (s : Session) (szName : String) (cch : Nat) : String :=
  ⟨(s.props szName).data.take (cch - 1)⟩

/-- `MsiSetProperty(hInstall, szName, szValue)`. -/
def MsiSetProperty (s : Session) (szName szValue : String) : Session :=
  { s with
    props := fun n => if n = szName then szValue else s.props n
    writes := s.writes ++ [(szName, szValue)] }

/-- Record one call `FileExists(pszDirectory, pszFileName)`. -/
def Session.noteCheck (s : Session) (pszDirectory pszFileName : String) : Session :=
  { s with checks := s.checks ++ [(pszDirectory, pszFileName)] }

/-! ## Formatting -/

/-- Expansion of a `printf` format in which `%u` is the only conversion used: each `%u`
takes the next argument and prints it in decimal, every other character is copied. -/
def formatU : List Char → List Nat → List Char
  | [], _ => []
  | [c], _ => [c]
  | c :: d :: rest, args =>
    if c = '%' ∧ d = 'u' then
      match args with
      | a :: more => (Nat.repr a).data ++ formatU rest more
      | [] => formatU rest []
    else c :: formatU (d :: rest) args

/-- `_stprintf_s(buffer, sizeOfBuffer, format, args...)`: the formatted string when it fits
the buffer together with its terminating zero, `none` when it does not (the run-time
library then calls the invalid-parameter handler). -/
def stprintf_s (sizeOfBuffer : Nat) (format : String) (args : List Nat) : Option String :=
  let out := formatU format.data args
  if out.length < sizeOfBuffer then some ⟨out⟩ else none

/-! ## The custom action -/

/-- Source lines 34-36.
`if (psz[_tcslen(psz) - 1] == '\\') psz[_tcslen(psz) - 1] = 0;`
The index is computed in `size_t`.  The result is `none` when the index is not the index of
a character of the string, which happens for the empty string: the index is then
`SIZE_MAX`, outside the buffer. -/
def removeFinalBackslash (psz : String) : Option String :=
  let i := wordSub psz.length 1
  match psz.data[i]? with
  | none => none
  | some c => if c = '\\' then some ⟨psz.data.take i⟩ else some psz

/-- How control leaves a piece of the function body. -/
inductive Flow where
  /-- A `return` statement was executed with this value. -/
  | returned (code : Nat) (s : Session)
  /-- The end of the guarded block was reached. -/
  | fellThrough (s : Session)
  /-- An exception was raised inside the guarded block. -/
  | thrown (s : Session)
  /-- An array was indexed outside its bounds: the behaviour is undefined. -/
  | outOfBounds (s : Session)
  /-- A bounded formatting call did not fit its buffer. -/
  | invalidParameter (s : Session)
  /-- The model ran out of iterations (255 iterations always suffice). -/
  | outOfFuel

/-- Source lines 41-58, the loop `for (iMig = 200006; iMig < 200261; iMig++)`, entered with
the current value of `iMig`.  The first argument bounds the number of iterations. -/
def scan (FileExists : String → String → Option Bool) (pszOlderDataMigDir : String) :
    Nat → Nat → Session → Flow
  | fuel, iMig, s =>
    if iMig < 200261 then
      match fuel with
      | 0 => Flow.outOfFuel
      | fuel + 1 =>
        match stprintf_s kFileNameLength "%uTo%u.sql" [wordSub iMig 1, iMig] with
        | none => Flow.invalidParameter s
        | some pszFileName =>
          let s1 := s.noteCheck pszOlderDataMigDir pszFileName
          match FileExists pszOlderDataMigDir pszFileName with
          | none => Flow.thrown s1
          | some false =>
            match stprintf_s kDataMigVersion "%u" [wordSub iMig 1] with
            | none => Flow.invalidParameter s1
            | some pszDataMigVersion =>
              Flow.returned ERROR_SUCCESS (MsiSetProperty s1 "MAX_DBMIG_VER" pszDataMigVersion)
          | some true => scan FileExists pszOlderDataMigDir fuel (wordInc iMig) s1
    else Flow.fellThrough s

/-- Source lines 14-59, the body of the `try` block. -/
def guardedBlock (FileExists : String → String → Option Bool) (s : Session) : Flow :=
  let pszOlderInstallDir := MsiGetProperty s "OLDER_FW_INSTALL_PATH" kcchStringBufLen
  if pszOlderInstallDir = "" then
    Flow.returned ERROR_SUCCESS (MsiSetProperty s "MAX_DBMIG_VER" "999999")
  else
    let pszOlderDataMigDir := MsiGetProperty s "OLDDATAMIGRATIONDIR" kcchStringBufLen
    match removeFinalBackslash pszOlderDataMigDir with
    | none => Flow.outOfBounds s
    | some dir => scan FileExists dir 255 200006 s

/-- Source lines 11-66.  `catch (...)` swallows every exception; after the guarded block,
whether it ended normally or by an exception, `MAX_DBMIG_VER` is set to `"0"`. -/
def GetHighestDbMigrationVersion (hInstall : MSIHANDLE)
    (FileExists : String → String → Option Bool) : Flow :=
  match guardedBlock FileExists (Session.start hInstall) with
  | Flow.returned code s => Flow.returned code s
  | Flow.fellThrough s => Flow.returned ERROR_SUCCESS (MsiSetProperty s "MAX_DBMIG_VER" "0")
  | Flow.thrown s => Flow.returned ERROR_SUCCESS (MsiSetProperty s "MAX_DBMIG_VER" "0")
  | Flow.outOfBounds s => Flow.outOfBounds s
  | Flow.invalidParameter s => Flow.invalidParameter s
  | Flow.outOfFuel => Flow.outOfFuel

/-! ## Vocabulary of the specification -/

/-- Spec, file-name convention: decimal `v - 1`, then `To`, then decimal `v`, then `.sql`. -/
def scriptName (v : Nat) : String :=
  Nat.repr (v - 1) ++ "To" ++ Nat.repr v ++ ".sql"

/-- Spec, directory normalisation: one final backslash is removed if there is one. -/
def normalisedDir (d : String) : String :=
  if d.data.getLast? = some '\\' then ⟨d.data.dropLast⟩ else d

/-- The string `MsiGetProperty` delivers for `OLDDATAMIGRATIONDIR`. -/
def oldDataMigrationDir (hInstall : MSIHANDLE) : String :=
  MsiGetProperty (Session.start hInstall) "OLDDATAMIGRATIONDIR" kcchStringBufLen

/-- The checks of candidates `a, a + 1, ..., a + n - 1` against directory `dir`. -/
def checksOf (dir : String) (a n : Nat) : List (String × String) :=
  (List.range' a n).map (fun v => (dir, scriptName v))

/-- The session a returning run leaves behind when it started from `hInstall`, wrote
`value` to `MAX_DBMIG_VER` as its only write, and made the checks `checks`. -/
def sessionAfter (hInstall : MSIHANDLE) (value : String) (checks : List (String × String)) :
    Session :=
  { props := fun n => if n = "MAX_DBMIG_VER" then value else hInstall n
    writes := [("MAX_DBMIG_VER", value)]
    checks := checks }

/-- The directory the scan looks in: the normalised `OLDDATAMIGRATIONDIR`. -/
def scanDir (hInstall : MSIHANDLE) : String := normalisedDir (oldDataMigrationDir hInstall)

/-- Every candidate script from `lo` to `hi` inclusive is reported present in `dir`. -/
def allPresent (FileExists : String → String → Option Bool) (dir : String) (lo hi : Nat) :
    Prop :=
  ∀ v, lo ≤ v → v ≤ hi → FileExists dir (scriptName v) = some true

instance (FileExists : String → String → Option Bool) (dir : String) (lo hi : Nat) :
    Decidable (allPresent FileExists dir lo hi) := by
  unfold allPresent
  infer_instance

/-- No check of a candidate script in `dir` raises an exception. -/
def noFailure (FileExists : String → String → Option Bool) (dir : String) : Prop :=
  ∀ v, 200006 ≤ v → v ≤ 200260 → FileExists dir (scriptName v) ≠ none

instance (FileExists : String → String → Option Bool) (dir : String) :
    Decidable (noFailure FileExists dir) := by
  unfold noFailure
  infer_instance

/-- Spec: the three kinds of output. -/
def IsOutput (value : String) : Prop :=
  value = "999999" ∨ value = "0" ∨ ∃ n, 200005 ≤ n ∧ n ≤ 200259 ∧ value = Nat.repr n

/-- A session in which an older installation is recorded, with its data migration
directory. -/
def sampleInstall : MSIHANDLE := fun n =>
  if n = "OLDER_FW_INSTALL_PATH" then "C:\\FW"
  else if n = "OLDDATAMIGRATIONDIR" then "C:\\FW\\DataMigration\\"
  else ""

/-- A session in which no older installation is recorded. -/
def freshInstall : MSIHANDLE := fun _ => ""

/-- A session in which an older installation is recorded but no data migration directory. -/
def bareInstall : MSIHANDLE := fun n => if n = "OLDER_FW_INSTALL_PATH" then "C:\\FW" else ""

/-- A directory without any migration script. -/
def noScripts : String → String → Option Bool := fun _ _ => some false

/-- A directory with every script one can ask for. -/
def allScripts : String → String → Option Bool := fun _ _ => some true

/-- A directory in which `200005To200006.sql` is the only script. -/
def oneScript : String → String → Option Bool := fun _ f => some (f == "200005To200006.sql")

/-- A directory that cannot be read: every check raises. -/
def unreadable : String → String → Option Bool := fun _ _ => none

/-- A session with further checks appended. -/
def Session.withChecks (s : Session) (more : List (String × String)) : Session :=
  { s with checks := s.checks ++ more }

/-- One step of reading a decimal string back, most significant digit first. -/
def decodeStep (a : Nat) (c : Char) : Nat := 10 * a + (c.toNat - 48)


/-! ## Decimal strings -/

theorem digitChar_decode (d : Nat) (h : d < 10) : (Nat.digitChar d).toNat - 48 = d := by
  interval_cases d <;> rfl

theorem toDigitsCore_decode (fuel : Nat) : ∀ (n : Nat) (acc : List Char), n < fuel →
    (Nat.toDigitsCore 10 fuel n acc).foldl decodeStep 0 = acc.foldl decodeStep n := by
  induction fuel with
  | zero => intro n acc h; omega
  | succ fuel ih =>
    intro n acc h
    unfold Nat.toDigitsCore
    simp only
    split
    · simp only [List.foldl_cons, decodeStep,
        digitChar_decode _ (Nat.mod_lt n (by decide : 10 > 0))]
      congr 1
      omega
    · rw [ih (n / 10) _ (by omega)]
      simp only [List.foldl_cons, decodeStep,
        digitChar_decode _ (Nat.mod_lt n (by decide : 10 > 0))]
      congr 1
      omega

/-- Two numbers with the same decimal string are equal. -/
theorem repr_injective (a b : Nat) (h : Nat.repr a = Nat.repr b) : a = b := by
  have ha := toDigitsCore_decode (a + 1) a [] (by omega)
  have hb := toDigitsCore_decode (b + 1) b [] (by omega)
  have h2 : Nat.toDigits 10 a = Nat.toDigits 10 b := by
    have := congrArg String.data h
    simpa [Nat.repr, List.asString] using this
  unfold Nat.toDigits at h2
  rw [h2] at ha
  simp at ha hb
  omega

set_option maxRecDepth 100000 in
theorem repr_length_table : ∀ i < 256, (Nat.repr (200005 + i)).length = 6 := by decide

/-- Every number from 200005 to 200260 has six decimal digits. -/
theorem repr_length_six (v : Nat) (h1 : 200005 ≤ v) (h2 : v ≤ 200260) :
    (Nat.repr v).length = 6 := by
  have := repr_length_table (v - 200005) (by omega)
  rwa [show 200005 + (v - 200005) = v by omega] at this

/-! ## Machine words -/

theorem wordSub_one (a : Nat) (h1 : 1 ≤ a) (h2 : a ≤ wordModulus) : wordSub a 1 = a - 1 := by
  unfold wordSub wordModulus at *
  have e : ((a : Int) - ((1 : Nat) : Int)) % ((4294967296 : Nat) : Int) = ((a - 1 : Nat) : Int) := by
    omega
  rw [e]
  rfl

theorem wordSub_one_zero : wordSub 0 1 = wordModulus - 1 := by decide

theorem wordInc_small (a : Nat) (h : a + 1 < wordModulus) : wordInc a = a + 1 := by
  unfold wordInc wordModulus at *
  omega

/-! ## Formatting -/

theorem formatU_fileName (a b : Nat) :
    formatU "%uTo%u.sql".data [a, b]
      = (Nat.repr a).data ++ ("To".data ++ ((Nat.repr b).data ++ ".sql".data)) := by
  simp [formatU]

theorem formatU_version (a : Nat) : formatU "%u".data [a] = (Nat.repr a).data := by
  simp [formatU]

theorem scriptName_data (v : Nat) :
    (scriptName v).data
      = (Nat.repr (v - 1)).data ++ ("To".data ++ ((Nat.repr v).data ++ ".sql".data)) := by
  simp [scriptName, String.data_append]

theorem scriptName_length (v : Nat) (h1 : 200006 ≤ v) (h2 : v ≤ 200260) :
    (scriptName v).length = 18 := by
  have a := repr_length_six (v - 1) (by omega) (by omega)
  have b := repr_length_six v (by omega) (by omega)
  simp only [scriptName, String.length_append, a, b]
  rfl

/-- In the loop the file-name buffer is large enough and the name follows the convention. -/
theorem fileName_ok (v : Nat) (h1 : 200006 ≤ v) (h2 : v ≤ 200260) :
    stprintf_s kFileNameLength "%uTo%u.sql" [wordSub v 1, v] = some (scriptName v) := by
  have hs : wordSub v 1 = v - 1 := wordSub_one v (by omega) (by unfold wordModulus; omega)
  have hl := scriptName_length v h1 h2
  have hd := scriptName_data v
  unfold stprintf_s
  rw [hs, formatU_fileName, ← hd]
  have : (scriptName v).length < kFileNameLength := by
    unfold kFileNameLength
    omega
  simp [this]

/-- In the loop the version buffer is large enough for the decimal string of `v - 1`. -/
theorem version_ok (v : Nat) (h1 : 200006 ≤ v) (h2 : v ≤ 200260) :
    stprintf_s kDataMigVersion "%u" [wordSub v 1] = some (Nat.repr (v - 1)) := by
  have hs : wordSub v 1 = v - 1 := wordSub_one v (by omega) (by unfold wordModulus; omega)
  have a := repr_length_six (v - 1) (by omega) (by omega)
  unfold stprintf_s
  rw [hs, formatU_version]
  have : (Nat.repr (v - 1)).length < kDataMigVersion := by
    unfold kDataMigVersion
    omega
  simp [this]

/-! ## Buffers and the directory -/

theorem string_eq_empty_iff (t : String) : t = "" ↔ t.data = [] := by
  constructor
  · intro h; rw [h]
  · intro h; exact String.ext h

theorem MsiGetProperty_eq_empty (s : Session) (name : String) :
    MsiGetProperty s name kcchStringBufLen = "" ↔ s.props name = "" := by
  rw [string_eq_empty_iff, string_eq_empty_iff]
  simp [MsiGetProperty, kcchStringBufLen]

theorem MsiGetProperty_length (s : Session) (name : String) :
    (MsiGetProperty s name kcchStringBufLen).length < kcchStringBufLen := by
  have : (MsiGetProperty s name kcchStringBufLen).length
      = ((s.props name).data.take (kcchStringBufLen - 1)).length := rfl
  rw [this, List.length_take]
  unfold kcchStringBufLen
  omega

theorem removeFinalBackslash_empty : removeFinalBackslash "" = none := by decide

/-- On a non-empty string that fits the address space the source's normalisation is the
specification's. -/
theorem removeFinalBackslash_eq (d : String) (hne : d ≠ "") (hlen : d.length ≤ wordModulus) :
    removeFinalBackslash d = some (normalisedDir d) := by
  have hpos : 0 < d.data.length := by
    rcases hd : d.data with _ | ⟨c, l⟩
    · exact absurd ((string_eq_empty_iff d).2 hd) hne
    · simp
  have hi : wordSub d.length 1 = d.data.length - 1 := wordSub_one _ hpos hlen
  have hget : d.data[d.data.length - 1]? = d.data.getLast? := by
    rw [List.getLast?_eq_getElem?]
  unfold removeFinalBackslash normalisedDir
  simp only [hi, hget]
  rcases hl : d.data.getLast? with _ | c
  · rw [List.getLast?_eq_none_iff] at hl
    rw [hl] at hpos
    simp at hpos
  · by_cases hc : c = '\\'
    · simp [hc, List.dropLast_eq_take]
    · simp [hc]

/-! ## The loop -/

theorem checksOf_succ (dir : String) (a n : Nat) :
    checksOf dir a (n + 1) = (dir, scriptName a) :: checksOf dir (a + 1) n := by
  simp [checksOf, List.range'_succ]

theorem withChecks_nil (s : Session) : s.withChecks [] = s := by
  simp [Session.withChecks]

theorem noteCheck_withChecks (s : Session) (dir : String) (a n : Nat) :
    (s.noteCheck dir (scriptName a)).withChecks (checksOf dir (a + 1) n)
      = s.withChecks (checksOf dir a (n + 1)) := by
  simp [Session.noteCheck, Session.withChecks, checksOf_succ]

/-- One iteration on a script that exists. -/
theorem scan_present (FileExists : String → String → Option Bool) (dir : String)
    (fuel iMig : Nat) (s : Session) (h1 : 200006 ≤ iMig) (h2 : iMig ≤ 200260)
    (h : FileExists dir (scriptName iMig) = some true) :
    scan FileExists dir (fuel + 1) iMig s
      = scan FileExists dir fuel (iMig + 1) (s.noteCheck dir (scriptName iMig)) := by
  have hinc : wordInc iMig = iMig + 1 := wordInc_small _ (by unfold wordModulus; omega)
  rw [scan]
  simp [show iMig < 200261 by omega, fileName_ok iMig h1 h2, h, hinc]

/-- One iteration on a script that is missing. -/
theorem scan_missing (FileExists : String → String → Option Bool) (dir : String)
    (fuel iMig : Nat) (s : Session) (h1 : 200006 ≤ iMig) (h2 : iMig ≤ 200260)
    (h : FileExists dir (scriptName iMig) = some false) :
    scan FileExists dir (fuel + 1) iMig s
      = Flow.returned ERROR_SUCCESS
          (MsiSetProperty (s.noteCheck dir (scriptName iMig)) "MAX_DBMIG_VER"
            (Nat.repr (iMig - 1))) := by
  rw [scan]
  simp [show iMig < 200261 by omega, fileName_ok iMig h1 h2, version_ok iMig h1 h2, h]

/-- One iteration on a check that raises. -/
theorem scan_raising (FileExists : String → String → Option Bool) (dir : String)
    (fuel iMig : Nat) (s : Session) (h1 : 200006 ≤ iMig) (h2 : iMig ≤ 200260)
    (h : FileExists dir (scriptName iMig) = none) :
    scan FileExists dir (fuel + 1) iMig s = Flow.thrown (s.noteCheck dir (scriptName iMig)) := by
  rw [scan]
  simp [show iMig < 200261 by omega, fileName_ok iMig h1 h2, h]

/-- The loop condition fails at 200261. -/
theorem scan_end (FileExists : String → String → Option Bool) (dir : String)
    (fuel : Nat) (s : Session) : scan FileExists dir fuel 200261 s = Flow.fellThrough s := by
  cases fuel <;> rfl

/-- After `n` scripts in a row that exist, the loop stands `n` candidates further. -/
theorem scan_prefix (FileExists : String → String → Option Bool) (dir : String) (n : Nat) :
    ∀ (fuel iMig : Nat) (s : Session), 200006 ≤ iMig → iMig + n ≤ 200261 →
      (∀ v, iMig ≤ v → v < iMig + n → FileExists dir (scriptName v) = some true) →
      scan FileExists dir (fuel + n) iMig s
        = scan FileExists dir fuel (iMig + n) (s.withChecks (checksOf dir iMig n)) := by
  induction n with
  | zero =>
    intro fuel iMig s _ _ _
    simp [checksOf, withChecks_nil]
  | succ n ih =>
    intro fuel iMig s h1 h2 hall
    rw [show fuel + (n + 1) = (fuel + n) + 1 by omega,
      scan_present FileExists dir (fuel + n) iMig s h1 (by omega) (hall iMig (by omega) (by omega)),
      ih fuel (iMig + 1) _ (by omega) (by omega)
        (fun v hv1 hv2 => hall v (by omega) (by omega)),
      noteCheck_withChecks, show iMig + 1 + n = iMig + (n + 1) by omega]

theorem checksOf_concat (dir : String) (a n : Nat) :
    checksOf dir a (n + 1) = checksOf dir a n ++ [(dir, scriptName (a + n))] := by
  simp [checksOf, List.range'_concat]

theorem checksOf_eq (dir : String) (a n : Nat) :
    checksOf dir a n = (List.range' a n).map (fun v => (dir, scriptName v)) := rfl

theorem checksOf_length (dir : String) (a n : Nat) : (checksOf dir a n).length = n := by
  simp [checksOf]

theorem withChecks_noteCheck (s : Session) (dir : String) (a n : Nat) :
    (s.withChecks (checksOf dir a n)).noteCheck dir (scriptName (a + n))
      = s.withChecks (checksOf dir a (n + 1)) := by
  simp [Session.noteCheck, Session.withChecks, checksOf_concat]

/-- The loop when candidate `g` is the first whose script is missing. -/
theorem scan_gap (FileExists : String → String → Option Bool) (dir : String) (s : Session)
    (g : Nat) (h1 : 200006 ≤ g) (h2 : g ≤ 200260)
    (hall : allPresent FileExists dir 200006 (g - 1))
    (hg : FileExists dir (scriptName g) = some false) :
    scan FileExists dir 255 200006 s
      = Flow.returned ERROR_SUCCESS
          (MsiSetProperty (s.withChecks (checksOf dir 200006 (g - 200005))) "MAX_DBMIG_VER"
            (Nat.repr (g - 1))) := by
  have hp := scan_prefix FileExists dir (g - 200006) (200260 - g + 1) 200006 s (by omega)
    (by omega) (fun v hv1 hv2 => hall v hv1 (by omega))
  rw [show 200260 - g + 1 + (g - 200006) = 255 by omega] at hp
  rw [hp, scan_missing FileExists dir _ _ _ (by omega) (by omega)
    (by rw [show 200006 + (g - 200006) = g by omega]; exact hg),
    withChecks_noteCheck, show 200006 + (g - 200006) = g by omega,
    show g - 200006 + 1 = g - 200005 by omega]

/-- The loop when the check of candidate `g` is the first that does not answer true, and it
raises. -/
theorem scan_throw (FileExists : String → String → Option Bool) (dir : String) (s : Session)
    (g : Nat) (h1 : 200006 ≤ g) (h2 : g ≤ 200260)
    (hall : allPresent FileExists dir 200006 (g - 1))
    (hg : FileExists dir (scriptName g) = none) :
    scan FileExists dir 255 200006 s
      = Flow.thrown (s.withChecks (checksOf dir 200006 (g - 200005))) := by
  have hp := scan_prefix FileExists dir (g - 200006) (200260 - g + 1) 200006 s (by omega)
    (by omega) (fun v hv1 hv2 => hall v hv1 (by omega))
  rw [show 200260 - g + 1 + (g - 200006) = 255 by omega] at hp
  rw [hp, scan_raising FileExists dir _ _ _ (by omega) (by omega)
    (by rw [show 200006 + (g - 200006) = g by omega]; exact hg),
    withChecks_noteCheck, show g - 200006 + 1 = g - 200005 by omega]

/-- The loop when every script exists. -/
theorem scan_full (FileExists : String → String → Option Bool) (dir : String) (s : Session)
    (hall : allPresent FileExists dir 200006 200260) :
    scan FileExists dir 255 200006 s
      = Flow.fellThrough (s.withChecks (checksOf dir 200006 255)) := by
  have hp := scan_prefix FileExists dir 255 0 200006 s (by omega)
    (by omega) (fun v hv1 hv2 => hall v hv1 (by omega))
  rw [show 0 + 255 = 255 by omega] at hp
  rw [hp, show 200006 + 255 = 200261 by omega, scan_end]

/-! ## The whole call -/

theorem older_buffer_empty (hInstall : MSIHANDLE) :
    MsiGetProperty (Session.start hInstall) "OLDER_FW_INSTALL_PATH" kcchStringBufLen = ""
      ↔ hInstall "OLDER_FW_INSTALL_PATH" = "" :=
  MsiGetProperty_eq_empty (Session.start hInstall) "OLDER_FW_INSTALL_PATH"

theorem dir_buffer_empty (hInstall : MSIHANDLE) :
    oldDataMigrationDir hInstall = "" ↔ hInstall "OLDDATAMIGRATIONDIR" = "" :=
  MsiGetProperty_eq_empty (Session.start hInstall) "OLDDATAMIGRATIONDIR"

theorem dir_buffer_length (hInstall : MSIHANDLE) :
    (oldDataMigrationDir hInstall).length ≤ wordModulus := by
  have := MsiGetProperty_length (Session.start hInstall) "OLDDATAMIGRATIONDIR"
  unfold kcchStringBufLen at this
  unfold oldDataMigrationDir wordModulus kcchStringBufLen
  omega

theorem setProperty_start (hInstall : MSIHANDLE) (value : String)
    (checks : List (String × String)) :
    MsiSetProperty ((Session.start hInstall).withChecks checks) "MAX_DBMIG_VER" value
      = sessionAfter hInstall value checks := rfl

theorem sessionAfter_checks (hInstall : MSIHANDLE) (value : String)
    (checks : List (String × String)) : (sessionAfter hInstall value checks).checks = checks :=
  rfl

theorem setProperty_start_nil (hInstall : MSIHANDLE) (value : String) :
    MsiSetProperty (Session.start hInstall) "MAX_DBMIG_VER" value
      = sessionAfter hInstall value [] := rfl

/-- With no older installation the guarded block returns at once. -/
theorem guardedBlock_fresh (hInstall : MSIHANDLE) (FileExists : String → String → Option Bool)
    (ho : hInstall "OLDER_FW_INSTALL_PATH" = "") :
    guardedBlock FileExists (Session.start hInstall)
      = Flow.returned ERROR_SUCCESS (sessionAfter hInstall "999999" []) := by
  unfold guardedBlock
  simp only [(older_buffer_empty hInstall).2 ho, if_true, setProperty_start_nil]

/-- With an older installation and an empty directory the guarded block indexes outside the
string. -/
theorem guardedBlock_bare (hInstall : MSIHANDLE) (FileExists : String → String → Option Bool)
    (ho : hInstall "OLDER_FW_INSTALL_PATH" ≠ "") (hd : hInstall "OLDDATAMIGRATIONDIR" = "") :
    guardedBlock FileExists (Session.start hInstall)
      = Flow.outOfBounds (Session.start hInstall) := by
  have hb : MsiGetProperty (Session.start hInstall) "OLDDATAMIGRATIONDIR" kcchStringBufLen = "" :=
    (dir_buffer_empty hInstall).2 hd
  unfold guardedBlock
  simp only [mt (older_buffer_empty hInstall).1 ho, if_false, hb, removeFinalBackslash_empty]

/-- With an older installation and a directory the guarded block runs the loop on the
normalised directory. -/
theorem guardedBlock_scan (hInstall : MSIHANDLE) (FileExists : String → String → Option Bool)
    (ho : hInstall "OLDER_FW_INSTALL_PATH" ≠ "") (hd : hInstall "OLDDATAMIGRATIONDIR" ≠ "") :
    guardedBlock FileExists (Session.start hInstall)
      = scan FileExists (scanDir hInstall) 255 200006 (Session.start hInstall) := by
  have hb : removeFinalBackslash
      (MsiGetProperty (Session.start hInstall) "OLDDATAMIGRATIONDIR" kcchStringBufLen)
        = some (scanDir hInstall) :=
    removeFinalBackslash_eq (oldDataMigrationDir hInstall)
      (mt (dir_buffer_empty hInstall).1 hd) (dir_buffer_length hInstall)
  unfold guardedBlock
  simp only [mt (older_buffer_empty hInstall).1 ho, if_false, hb]

theorem run_fresh (hInstall : MSIHANDLE) (FileExists : String → String → Option Bool)
    (ho : hInstall "OLDER_FW_INSTALL_PATH" = "") :
    GetHighestDbMigrationVersion hInstall FileExists
      = Flow.returned ERROR_SUCCESS (sessionAfter hInstall "999999" []) := by
  unfold GetHighestDbMigrationVersion
  rw [guardedBlock_fresh hInstall FileExists ho]

theorem run_bare (hInstall : MSIHANDLE) (FileExists : String → String → Option Bool)
    (ho : hInstall "OLDER_FW_INSTALL_PATH" ≠ "") (hd : hInstall "OLDDATAMIGRATIONDIR" = "") :
    GetHighestDbMigrationVersion hInstall FileExists
      = Flow.outOfBounds (Session.start hInstall) := by
  unfold GetHighestDbMigrationVersion
  rw [guardedBlock_bare hInstall FileExists ho hd]

theorem run_gap (hInstall : MSIHANDLE) (FileExists : String → String → Option Bool)
    (ho : hInstall "OLDER_FW_INSTALL_PATH" ≠ "") (hd : hInstall "OLDDATAMIGRATIONDIR" ≠ "")
    (g : Nat) (h1 : 200006 ≤ g) (h2 : g ≤ 200260)
    (hall : allPresent FileExists (scanDir hInstall) 200006 (g - 1))
    (hg : FileExists (scanDir hInstall) (scriptName g) = some false) :
    GetHighestDbMigrationVersion hInstall FileExists
      = Flow.returned ERROR_SUCCESS
          (sessionAfter hInstall (Nat.repr (g - 1))
            (checksOf (scanDir hInstall) 200006 (g - 200005))) := by
  unfold GetHighestDbMigrationVersion
  rw [guardedBlock_scan hInstall FileExists ho hd, scan_gap FileExists _ _ g h1 h2 hall hg,
    setProperty_start]

theorem run_throw (hInstall : MSIHANDLE) (FileExists : String → String → Option Bool)
    (ho : hInstall "OLDER_FW_INSTALL_PATH" ≠ "") (hd : hInstall "OLDDATAMIGRATIONDIR" ≠ "")
    (g : Nat) (h1 : 200006 ≤ g) (h2 : g ≤ 200260)
    (hall : allPresent FileExists (scanDir hInstall) 200006 (g - 1))
    (hg : FileExists (scanDir hInstall) (scriptName g) = none) :
    GetHighestDbMigrationVersion hInstall FileExists
      = Flow.returned ERROR_SUCCESS
          (sessionAfter hInstall "0" (checksOf (scanDir hInstall) 200006 (g - 200005))) := by
  unfold GetHighestDbMigrationVersion
  rw [guardedBlock_scan hInstall FileExists ho hd, scan_throw FileExists _ _ g h1 h2 hall hg]
  exact congrArg (Flow.returned ERROR_SUCCESS) (setProperty_start hInstall "0" _)

theorem run_full (hInstall : MSIHANDLE) (FileExists : String → String → Option Bool)
    (ho : hInstall "OLDER_FW_INSTALL_PATH" ≠ "") (hd : hInstall "OLDDATAMIGRATIONDIR" ≠ "")
    (hall : allPresent FileExists (scanDir hInstall) 200006 200260) :
    GetHighestDbMigrationVersion hInstall FileExists
      = Flow.returned ERROR_SUCCESS
          (sessionAfter hInstall "0" (checksOf (scanDir hInstall) 200006 255)) := by
  unfold GetHighestDbMigrationVersion
  rw [guardedBlock_scan hInstall FileExists ho hd, scan_full FileExists _ _ hall]
  exact congrArg (Flow.returned ERROR_SUCCESS) (setProperty_start hInstall "0" _)

/-- Either every script exists, or there is a first candidate whose check does not answer
true. -/
theorem first_stop (FileExists : String → String → Option Bool) (dir : String) :
    allPresent FileExists dir 200006 200260 ∨
      ∃ g, 200006 ≤ g ∧ g ≤ 200260 ∧ allPresent FileExists dir 200006 (g - 1) ∧
        FileExists dir (scriptName g) ≠ some true := by
  by_cases h : allPresent FileExists dir 200006 200260
  · exact Or.inl h
  · right
    unfold allPresent at h
    push_neg at h
    have hex : ∃ v, 200006 ≤ v ∧ v ≤ 200260 ∧ FileExists dir (scriptName v) ≠ some true := h
    refine ⟨Nat.find hex, (Nat.find_spec hex).1, (Nat.find_spec hex).2.1, ?_,
      (Nat.find_spec hex).2.2⟩
    intro v hv1 hv2
    have hlt : v < Nat.find hex := by
      have := (Nat.find_spec hex).1
      omega
    have hmin := Nat.find_min hex hlt
    by_contra hne
    exact hmin ⟨hv1, by have := (Nat.find_spec hex).2.1; omega, hne⟩

/-- Every way the call can go. -/
theorem run_cases (hInstall : MSIHANDLE) (FileExists : String → String → Option Bool) :
    (hInstall "OLDER_FW_INSTALL_PATH" = "" ∧
      GetHighestDbMigrationVersion hInstall FileExists
        = Flow.returned ERROR_SUCCESS (sessionAfter hInstall "999999" []))
    ∨ (hInstall "OLDER_FW_INSTALL_PATH" ≠ "" ∧ hInstall "OLDDATAMIGRATIONDIR" = "" ∧
      GetHighestDbMigrationVersion hInstall FileExists
        = Flow.outOfBounds (Session.start hInstall))
    ∨ (hInstall "OLDER_FW_INSTALL_PATH" ≠ "" ∧ hInstall "OLDDATAMIGRATIONDIR" ≠ "" ∧
      ∃ g, 200006 ≤ g ∧ g ≤ 200260 ∧ allPresent FileExists (scanDir hInstall) 200006 (g - 1) ∧
        FileExists (scanDir hInstall) (scriptName g) = some false ∧
        GetHighestDbMigrationVersion hInstall FileExists
          = Flow.returned ERROR_SUCCESS
              (sessionAfter hInstall (Nat.repr (g - 1))
                (checksOf (scanDir hInstall) 200006 (g - 200005))))
    ∨ (hInstall "OLDER_FW_INSTALL_PATH" ≠ "" ∧ hInstall "OLDDATAMIGRATIONDIR" ≠ "" ∧
      ∃ g, 200006 ≤ g ∧ g ≤ 200260 ∧ allPresent FileExists (scanDir hInstall) 200006 (g - 1) ∧
        FileExists (scanDir hInstall) (scriptName g) = none ∧
        GetHighestDbMigrationVersion hInstall FileExists
          = Flow.returned ERROR_SUCCESS
              (sessionAfter hInstall "0" (checksOf (scanDir hInstall) 200006 (g - 200005))))
    ∨ (hInstall "OLDER_FW_INSTALL_PATH" ≠ "" ∧ hInstall "OLDDATAMIGRATIONDIR" ≠ "" ∧
      allPresent FileExists (scanDir hInstall) 200006 200260 ∧
      GetHighestDbMigrationVersion hInstall FileExists
        = Flow.returned ERROR_SUCCESS
            (sessionAfter hInstall "0" (checksOf (scanDir hInstall) 200006 255))) := by
  by_cases ho : hInstall "OLDER_FW_INSTALL_PATH" = ""
  · exact Or.inl ⟨ho, run_fresh hInstall FileExists ho⟩
  by_cases hd : hInstall "OLDDATAMIGRATIONDIR" = ""
  · exact Or.inr (Or.inl ⟨ho, hd, run_bare hInstall FileExists ho hd⟩)
  rcases first_stop FileExists (scanDir hInstall) with hall | ⟨g, h1, h2, hall, hg⟩
  · exact Or.inr (Or.inr (Or.inr (Or.inr ⟨ho, hd, hall, run_full hInstall FileExists ho hd hall⟩)))
  · rcases hans : FileExists (scanDir hInstall) (scriptName g) with _ | b
    · exact Or.inr (Or.inr (Or.inr (Or.inl ⟨ho, hd, g, h1, h2, hall, hans,
        run_throw hInstall FileExists ho hd g h1 h2 hall hans⟩)))
    · cases b
      · exact Or.inr (Or.inr (Or.inl ⟨ho, hd, g, h1, h2, hall, hans,
          run_gap hInstall FileExists ho hd g h1 h2 hall hans⟩))
      · exact absurd hans hg

theorem sample_older : sampleInstall "OLDER_FW_INSTALL_PATH" ≠ "" := by decide

theorem sample_dir : sampleInstall "OLDDATAMIGRATIONDIR" ≠ "" := by decide

/-! ## The claims -/

/-- C1: gap result.  For every `k` from 200005 to 200259, when `OLDER_FW_INSTALL_PATH` and
`OLDDATAMIGRATIONDIR` are not empty, the check answers true for every candidate from 200006
to `k` and false for candidate `k + 1`, the call returns `ERROR_SUCCESS` having written the
decimal string of `k` to `MAX_DBMIG_VER`, after checking the candidates 200006 to `k + 1`. -/
theorem gap_result (hInstall : MSIHANDLE) (FileExists : String → String → Option Bool)
    (k : Nat) (hk1 : 200005 ≤ k) (hk2 : k ≤ 200259)
    (ho : hInstall "OLDER_FW_INSTALL_PATH" ≠ "") (hd : hInstall "OLDDATAMIGRATIONDIR" ≠ "")
    (hall : allPresent FileExists (scanDir hInstall) 200006 k)
    (hgap : FileExists (scanDir hInstall) (scriptName (k + 1)) = some false) :
    GetHighestDbMigrationVersion hInstall FileExists
      = Flow.returned ERROR_SUCCESS
          (sessionAfter hInstall (Nat.repr k)
            (checksOf (scanDir hInstall) 200006 (k - 200004))) := by
  have h := run_gap hInstall FileExists ho hd (k + 1) (by omega) (by omega)
    (by rw [show k + 1 - 1 = k by omega]; exact hall) hgap
  rw [show k + 1 - 1 = k by omega, show k + 1 - 200005 = k - 200004 by omega] at h
  exact h

/-- Witness of C1: with `200005To200006.sql` as the only script the call writes `200006`. -/
theorem gap_result_witness :
    GetHighestDbMigrationVersion sampleInstall oneScript
      = Flow.returned ERROR_SUCCESS
          (sessionAfter sampleInstall "200006"
            [("C:\\FW\\DataMigration", "200005To200006.sql"),
             ("C:\\FW\\DataMigration", "200006To200007.sql")]) :=
  gap_result sampleInstall oneScript 200006 (by decide) (by decide) sample_older sample_dir
    (fun v hv1 hv2 => by
      obtain rfl : v = 200006 := by omega
      decide)
    (by decide)

/-- C2: no prior installation.  When `OLDER_FW_INSTALL_PATH` is empty, whatever
`OLDDATAMIGRATIONDIR` holds and whatever the check would answer, the call returns
`ERROR_SUCCESS`, its only write is `999999` to `MAX_DBMIG_VER`, and it makes no check. -/
theorem no_prior_installation (hInstall : MSIHANDLE)
    (FileExists : String → String → Option Bool)
    (ho : hInstall "OLDER_FW_INSTALL_PATH" = "") :
    ∃ s, GetHighestDbMigrationVersion hInstall FileExists = Flow.returned ERROR_SUCCESS s ∧
      s.writes = [("MAX_DBMIG_VER", "999999")] ∧ s.props "MAX_DBMIG_VER" = "999999" ∧
      s.checks = [] ∧ s.checks.length = 0 :=
  ⟨sessionAfter hInstall "999999" [], run_fresh hInstall FileExists ho, rfl, rfl, rfl, rfl⟩

/-- Witness of C2: a session without properties, in a directory full of scripts. -/
theorem no_prior_installation_witness :
    ∃ s, GetHighestDbMigrationVersion freshInstall allScripts = Flow.returned ERROR_SUCCESS s ∧
      s.writes = [("MAX_DBMIG_VER", "999999")] ∧ s.props "MAX_DBMIG_VER" = "999999" ∧
      s.checks = [] ∧ s.checks.length = 0 :=
  no_prior_installation freshInstall allScripts (by decide)

/-- C3: fall-through.  When `OLDER_FW_INSTALL_PATH` and `OLDDATAMIGRATIONDIR` are not empty
and the check answers true for every candidate from 200006 to 200260, the guarded block
reaches its end after 255 checks, and the call returns `ERROR_SUCCESS` having written `0` to
`MAX_DBMIG_VER`, which is not the decimal string of 200260. -/
theorem fall_through (hInstall : MSIHANDLE) (FileExists : String → String → Option Bool)
    (ho : hInstall "OLDER_FW_INSTALL_PATH" ≠ "") (hd : hInstall "OLDDATAMIGRATIONDIR" ≠ "")
    (hall : allPresent FileExists (scanDir hInstall) 200006 200260) :
    guardedBlock FileExists (Session.start hInstall)
        = Flow.fellThrough
            ((Session.start hInstall).withChecks (checksOf (scanDir hInstall) 200006 255)) ∧
      GetHighestDbMigrationVersion hInstall FileExists
        = Flow.returned ERROR_SUCCESS
            (sessionAfter hInstall "0" (checksOf (scanDir hInstall) 200006 255)) ∧
      "0" ≠ Nat.repr 200260 := by
  refine ⟨?_, run_full hInstall FileExists ho hd hall, by decide⟩
  rw [guardedBlock_scan hInstall FileExists ho hd, scan_full FileExists _ _ hall]

/-- Witness of C3: the sample session in a directory full of scripts. -/
theorem fall_through_witness :
    guardedBlock allScripts (Session.start sampleInstall)
        = Flow.fellThrough
            ((Session.start sampleInstall).withChecks
              (checksOf (scanDir sampleInstall) 200006 255)) ∧
      GetHighestDbMigrationVersion sampleInstall allScripts
        = Flow.returned ERROR_SUCCESS
            (sessionAfter sampleInstall "0" (checksOf (scanDir sampleInstall) 200006 255)) ∧
      "0" ≠ Nat.repr 200260 :=
  fall_through sampleInstall allScripts sample_older sample_dir (fun _ _ _ => rfl)

/-- C4: meaning of a reported version.  When the call returns and the value it wrote to
`MAX_DBMIG_VER` is the decimal string of a number `n` other than 999999 and 0, the check
answered true for every candidate from 200006 to `n` in the normalised directory, it answered
false for candidate `n + 1`, and `200005 ≤ n` and `n + 1 ≤ 200260`. -/
theorem reported_version_meaning (hInstall : MSIHANDLE)
    (FileExists : String → String → Option Bool) (code : Nat) (s : Session) (n : Nat)
    (hrun : GetHighestDbMigrationVersion hInstall FileExists = Flow.returned code s)
    (hval : ("MAX_DBMIG_VER", Nat.repr n) ∈ s.writes)
    (hn1 : n ≠ 999999) (hn2 : n ≠ 0) :
    allPresent FileExists (scanDir hInstall) 200006 n ∧
      FileExists (scanDir hInstall) (scriptName (n + 1)) = some false ∧
      200005 ≤ n ∧ n + 1 ≤ 200260 := by
  rcases run_cases hInstall FileExists with ⟨_, h⟩ | ⟨_, _, h⟩ | ⟨_, _, g, h1, h2, hall, hg, h⟩ |
    ⟨_, _, g, _, _, _, _, h⟩ | ⟨_, _, _, h⟩
  · rw [h] at hrun
    injection hrun with _ hs
    subst hs
    have e : Nat.repr n = Nat.repr 999999 := by simpa [sessionAfter] using hval
    exact absurd (repr_injective _ _ e) hn1
  · rw [h] at hrun
    cases hrun
  · rw [h] at hrun
    injection hrun with _ hs
    subst hs
    have e : Nat.repr n = Nat.repr (g - 1) := by simpa [sessionAfter] using hval
    have hn : n = g - 1 := repr_injective _ _ e
    subst hn
    rw [show g - 1 + 1 = g by omega]
    exact ⟨hall, hg, by omega, by omega⟩
  · rw [h] at hrun
    injection hrun with _ hs
    subst hs
    have e : Nat.repr n = Nat.repr 0 := by simpa [sessionAfter] using hval
    exact absurd (repr_injective _ _ e) hn2
  · rw [h] at hrun
    injection hrun with _ hs
    subst hs
    have e : Nat.repr n = Nat.repr 0 := by simpa [sessionAfter] using hval
    exact absurd (repr_injective _ _ e) hn2

/-- Witness of C4: the run that reports 200006. -/
theorem reported_version_meaning_witness :
    allPresent oneScript (scanDir sampleInstall) 200006 200006 ∧
      oneScript (scanDir sampleInstall) (scriptName (200006 + 1)) = some false ∧
      200005 ≤ 200006 ∧ 200006 + 1 ≤ 200260 :=
  reported_version_meaning sampleInstall oneScript ERROR_SUCCESS
    (sessionAfter sampleInstall "200006" (checksOf (scanDir sampleInstall) 200006 2)) 200006
    (run_gap sampleInstall oneScript sample_older sample_dir 200007 (by decide) (by decide)
      (fun v hv1 hv2 => by
        obtain rfl : v = 200006 := by omega
        decide)
      (by decide))
    (by decide) (by decide) (by decide)

/-- C5: file-name convention.  For every candidate `v` from 200006 to 200260 the formatting
call yields the decimal string of `v - 1`, then `To`, then the decimal string of `v`, then
`.sql`; an iteration of the loop at `v` passes exactly this name, with the directory, to the
check and goes on according to the answer; and for 200006 the name is
`200005To200006.sql`. -/
theorem file_name_convention (v : Nat) (h1 : 200006 ≤ v) (h2 : v ≤ 200260) :
    stprintf_s kFileNameLength "%uTo%u.sql" [wordSub v 1, v]
        = some (Nat.repr (v - 1) ++ "To" ++ Nat.repr v ++ ".sql") ∧
      (∀ (FileExists : String → String → Option Bool) (dir : String) (fuel : Nat) (s : Session),
        scan FileExists dir (fuel + 1) v s
          = match FileExists dir (Nat.repr (v - 1) ++ "To" ++ Nat.repr v ++ ".sql") with
            | none =>
              Flow.thrown (s.noteCheck dir (Nat.repr (v - 1) ++ "To" ++ Nat.repr v ++ ".sql"))
            | some false =>
              Flow.returned ERROR_SUCCESS
                (MsiSetProperty
                  (s.noteCheck dir (Nat.repr (v - 1) ++ "To" ++ Nat.repr v ++ ".sql"))
                  "MAX_DBMIG_VER" (Nat.repr (v - 1)))
            | some true =>
              scan FileExists dir fuel (v + 1)
                (s.noteCheck dir (Nat.repr (v - 1) ++ "To" ++ Nat.repr v ++ ".sql"))) ∧
      stprintf_s kFileNameLength "%uTo%u.sql" [wordSub 200006 1, 200006]
        = some "200005To200006.sql" := by
  refine ⟨fileName_ok v h1 h2, ?_, by decide⟩
  intro FileExists dir fuel s
  show _ = match FileExists dir (scriptName v) with
    | none => Flow.thrown (s.noteCheck dir (scriptName v))
    | some false =>
      Flow.returned ERROR_SUCCESS
        (MsiSetProperty (s.noteCheck dir (scriptName v)) "MAX_DBMIG_VER" (Nat.repr (v - 1)))
    | some true => scan FileExists dir fuel (v + 1) (s.noteCheck dir (scriptName v))
  rcases hans : FileExists dir (scriptName v) with _ | b
  · exact scan_raising FileExists dir fuel v s h1 h2 hans
  · cases b
    · exact scan_missing FileExists dir fuel v s h1 h2 hans
    · exact scan_present FileExists dir fuel v s h1 h2 hans

/-- Witness of C5: candidate 200100. -/
theorem file_name_convention_witness :
    stprintf_s kFileNameLength "%uTo%u.sql" [wordSub 200100 1, 200100]
      = some (Nat.repr (200100 - 1) ++ "To" ++ Nat.repr 200100 ++ ".sql") :=
  (file_name_convention 200100 (by decide) (by decide)).1

/-- Counterexample to C6: the name generated for version 200007 does not have 19
characters. -/
theorem file_name_200007_length_not_19 :
    ∃ name, stprintf_s kFileNameLength "%uTo%u.sql" [wordSub 200007 1, 200007] = some name ∧
      name = "200006To200007.sql" ∧ name.length ≠ 19 :=
  ⟨"200006To200007.sql", by decide, rfl, by decide⟩

/-- C6, amended: the name generated for version 200007 is `200006To200007.sql`; it has 18
characters, and 19 is the size `kFileNameLength` of its buffer, which counts the terminating
zero. -/
theorem file_name_200007 :
    stprintf_s kFileNameLength "%uTo%u.sql" [wordSub 200007 1, 200007]
        = some "200006To200007.sql" ∧
      "200006To200007.sql".length = 18 ∧ kFileNameLength = 18 + 1 := by
  decide

/-- C7: the normalisation strips exactly one final backslash.  For every non-empty string `d`
that fits the address space: when `d` is `p` followed by one backslash the result is `p`,
also when `p` itself ends in a backslash; when `d` does not end in a backslash the result is
`d`. -/
theorem strips_one_backslash (d : String) (hne : d ≠ "") (hlen : d.length < wordModulus) :
    (∀ p : String, d = p ++ "\\" → removeFinalBackslash d = some p) ∧
      (d.data.getLast? ≠ some '\\' → removeFinalBackslash d = some d) := by
  rw [removeFinalBackslash_eq d hne (Nat.le_of_lt hlen)]
  constructor
  · intro p hp
    subst hp
    have hd : (p ++ "\\").data = p.data ++ ['\\'] := by
      rw [String.data_append]
    unfold normalisedDir
    rw [hd]
    simp
  · intro hlast
    unfold normalisedDir
    rw [if_neg hlast]

/-- Witness of C7: of two final backslashes one is left. -/
theorem strips_one_backslash_witness :
    (∀ p : String, "C:\\dir\\\\" = p ++ "\\" → removeFinalBackslash "C:\\dir\\\\" = some p) ∧
      (("C:\\dir\\\\" : String).data.getLast? ≠ some '\\' →
        removeFinalBackslash "C:\\dir\\\\" = some "C:\\dir\\\\") :=
  strips_one_backslash "C:\\dir\\\\" (by decide) (by decide)

/-- Counterexample to C8: on a non-empty string that ends in two backslashes the second
normalisation removes a second backslash. -/
theorem normalisation_not_idempotent :
    ("C:\\dir\\\\" : String) ≠ "" ∧
      removeFinalBackslash "C:\\dir\\\\" = some "C:\\dir\\" ∧
      removeFinalBackslash "C:\\dir\\" = some "C:\\dir" ∧
      (removeFinalBackslash "C:\\dir\\\\").bind removeFinalBackslash
        ≠ removeFinalBackslash "C:\\dir\\\\" := by
  decide

/-- C8, amended: the normalisation is idempotent on every non-empty string `d` that is not
the single backslash and does not end in two backslashes; `C:\dir\` becomes `C:\dir`, and
`C:\dir` stays unchanged. -/
theorem normalisation_idempotent (d : String) (hne : d ≠ "") (hlen : d.length < wordModulus)
    (hone : d ≠ "\\") (htwo : ∀ p : String, d ≠ p ++ "\\\\") :
    (removeFinalBackslash d).bind removeFinalBackslash = removeFinalBackslash d ∧
      removeFinalBackslash "C:\\dir\\" = some "C:\\dir" ∧
      removeFinalBackslash "C:\\dir" = some "C:\\dir" := by
  refine ⟨?_, by decide, by decide⟩
  rw [removeFinalBackslash_eq d hne (Nat.le_of_lt hlen)]
  show removeFinalBackslash (normalisedDir d) = some (normalisedDir d)
  obtain ⟨l⟩ := d
  by_cases hlast : l.getLast? = some '\\'
  · have hl : l.dropLast ++ ['\\'] = l := List.dropLast_append_getLast? _ hlast
    have hnd : normalisedDir ⟨l⟩ = ⟨l.dropLast⟩ := by
      unfold normalisedDir
      rw [if_pos hlast]
    rw [hnd]
    have hne2 : (⟨l.dropLast⟩ : String) ≠ "" := by
      intro h
      have h0 : l.dropLast = [] := (string_eq_empty_iff _).1 h
      rw [h0] at hl
      exact hone (String.ext hl.symm)
    have hlen2 : (⟨l.dropLast⟩ : String).length ≤ wordModulus := by
      have : (⟨l.dropLast⟩ : String).length = l.length - 1 := by
        show l.dropLast.length = _
        simp
      have h2 : l.length < wordModulus := hlen
      omega
    rw [removeFinalBackslash_eq _ hne2 hlen2]
    have hlast2 : ¬ l.dropLast.getLast? = some '\\' := by
      intro h
      have hl2 : l.dropLast.dropLast ++ ['\\'] = l.dropLast := List.dropLast_append_getLast? _ h
      apply htwo ⟨l.dropLast.dropLast⟩
      apply String.ext
      rw [String.data_append]
      show l = l.dropLast.dropLast ++ ['\\', '\\']
      rw [← hl, ← hl2]
      simp
    unfold normalisedDir
    rw [if_neg hlast2]
  · have hnd : normalisedDir ⟨l⟩ = ⟨l⟩ := by
      unfold normalisedDir
      rw [if_neg hlast]
    rw [hnd, removeFinalBackslash_eq _ hne (Nat.le_of_lt hlen), hnd]

/-- Witness of C8, amended: one final backslash. -/
theorem normalisation_idempotent_witness :
    (removeFinalBackslash "C:\\dir\\").bind removeFinalBackslash
      = removeFinalBackslash "C:\\dir\\" :=
  (normalisation_idempotent "C:\\dir\\" (by decide) (by decide) (by decide)
    (fun p h => by
      have hl := congrArg (fun t : String => t.data.reverse.tail.head?) h
      simp [String.data_append] at hl)).1

/-- Every call that returns, returns `ERROR_SUCCESS` with `MAX_DBMIG_VER` as its only write;
the other properties are as before. -/
theorem returned_shape (hInstall : MSIHANDLE) (FileExists : String → String → Option Bool)
    (code : Nat) (s : Session)
    (hrun : GetHighestDbMigrationVersion hInstall FileExists = Flow.returned code s) :
    code = ERROR_SUCCESS ∧
      ∃ value checks, s = sessionAfter hInstall value checks ∧ IsOutput value := by
  rcases run_cases hInstall FileExists with ⟨_, h⟩ | ⟨_, _, h⟩ | ⟨_, _, g, h1, h2, _, _, h⟩ |
    ⟨_, _, g, _, _, _, _, h⟩ | ⟨_, _, _, h⟩
  · rw [h] at hrun
    injection hrun with hc hs
    exact ⟨hc.symm, _, _, hs.symm, Or.inl rfl⟩
  · rw [h] at hrun
    cases hrun
  · rw [h] at hrun
    injection hrun with hc hs
    exact ⟨hc.symm, _, _, hs.symm, Or.inr (Or.inr ⟨g - 1, by omega, by omega, rfl⟩)⟩
  · rw [h] at hrun
    injection hrun with hc hs
    exact ⟨hc.symm, _, _, hs.symm, Or.inr (Or.inl rfl)⟩
  · rw [h] at hrun
    injection hrun with hc hs
    exact ⟨hc.symm, _, _, hs.symm, Or.inr (Or.inl rfl)⟩

/-- The call returns unless there is an older installation with an empty directory. -/
theorem returns_when_defined (hInstall : MSIHANDLE)
    (FileExists : String → String → Option Bool)
    (hdef : hInstall "OLDER_FW_INSTALL_PATH" = "" ∨ hInstall "OLDDATAMIGRATIONDIR" ≠ "") :
    ∃ s, GetHighestDbMigrationVersion hInstall FileExists = Flow.returned ERROR_SUCCESS s := by
  rcases run_cases hInstall FileExists with ⟨_, h⟩ | ⟨ho, hd, _⟩ | ⟨_, _, g, _, _, _, _, h⟩ |
    ⟨_, _, g, _, _, _, _, h⟩ | ⟨_, _, _, h⟩
  · exact ⟨_, h⟩
  · rcases hdef with h1 | h1
    · exact absurd h1 ho
    · exact absurd hd h1
  · exact ⟨_, h⟩
  · exact ⟨_, h⟩
  · exact ⟨_, h⟩

/-- C9: failure containment.  When the check of candidate `g` raises after the checks of all
candidates before it answered true, the call returns `ERROR_SUCCESS` having written `0` to
`MAX_DBMIG_VER`; every call that returns, returns `ERROR_SUCCESS`; and the call returns
whenever `OLDER_FW_INSTALL_PATH` is empty or `OLDDATAMIGRATIONDIR` is not. -/
theorem failure_containment (hInstall : MSIHANDLE)
    (FileExists : String → String → Option Bool) :
    (∀ g, hInstall "OLDER_FW_INSTALL_PATH" ≠ "" → hInstall "OLDDATAMIGRATIONDIR" ≠ "" →
        200006 ≤ g → g ≤ 200260 → allPresent FileExists (scanDir hInstall) 200006 (g - 1) →
        FileExists (scanDir hInstall) (scriptName g) = none →
        guardedBlock FileExists (Session.start hInstall)
            = Flow.thrown
                ((Session.start hInstall).withChecks
                  (checksOf (scanDir hInstall) 200006 (g - 200005))) ∧
          GetHighestDbMigrationVersion hInstall FileExists
            = Flow.returned ERROR_SUCCESS
                (sessionAfter hInstall "0"
                  (checksOf (scanDir hInstall) 200006 (g - 200005)))) ∧
      (∀ code s, GetHighestDbMigrationVersion hInstall FileExists = Flow.returned code s →
        code = ERROR_SUCCESS) ∧
      (hInstall "OLDER_FW_INSTALL_PATH" = "" ∨ hInstall "OLDDATAMIGRATIONDIR" ≠ "" →
        ∃ s, GetHighestDbMigrationVersion hInstall FileExists
          = Flow.returned ERROR_SUCCESS s) := by
  refine ⟨?_, ?_, returns_when_defined hInstall FileExists⟩
  · intro g ho hd h1 h2 hall hg
    refine ⟨?_, run_throw hInstall FileExists ho hd g h1 h2 hall hg⟩
    rw [guardedBlock_scan hInstall FileExists ho hd, scan_throw FileExists _ _ g h1 h2 hall hg]
  · intro code s hrun
    exact (returned_shape hInstall FileExists code s hrun).1

/-- Witness of C9: a directory that cannot be read; the first check raises. -/
theorem failure_containment_witness :
    guardedBlock unreadable (Session.start sampleInstall)
        = Flow.thrown
            ((Session.start sampleInstall).withChecks
              (checksOf (scanDir sampleInstall) 200006 (200006 - 200005))) ∧
      GetHighestDbMigrationVersion sampleInstall unreadable
        = Flow.returned ERROR_SUCCESS
            (sessionAfter sampleInstall "0"
              (checksOf (scanDir sampleInstall) 200006 (200006 - 200005))) :=
  (failure_containment sampleInstall unreadable).1 200006 sample_older sample_dir (by decide)
    (by decide) (fun v hv1 hv2 => absurd hv1 (by omega)) rfl

/-- C10: scan trace.  With `OLDER_FW_INSTALL_PATH` and `OLDDATAMIGRATIONDIR` not empty and
no check raising, let `g` be the first candidate whose script is missing, or 200260 when none
is missing.  The call returns, and the checks it made are, in this order, those of the
candidates 200006, 200007, ..., `g`, each against the normalised directory; their number is
`g - 200005`, at most 255. -/
theorem scan_trace (hInstall : MSIHANDLE) (FileExists : String → String → Option Bool)
    (ho : hInstall "OLDER_FW_INSTALL_PATH" ≠ "") (hd : hInstall "OLDDATAMIGRATIONDIR" ≠ "")
    (hnf : noFailure FileExists (scanDir hInstall)) :
    ∃ g s, 200006 ≤ g ∧ g ≤ 200260 ∧
      allPresent FileExists (scanDir hInstall) 200006 (g - 1) ∧
      (FileExists (scanDir hInstall) (scriptName g) = some false ∨
        (g = 200260 ∧ FileExists (scanDir hInstall) (scriptName g) = some true)) ∧
      GetHighestDbMigrationVersion hInstall FileExists = Flow.returned ERROR_SUCCESS s ∧
      s.checks
        = (List.range' 200006 (g - 200005)).map (fun v => (scanDir hInstall, scriptName v)) ∧
      s.checks.length = g - 200005 ∧ g - 200005 ≤ 255 := by
  rcases run_cases hInstall FileExists with ⟨h0, _⟩ | ⟨_, h0, _⟩ |
    ⟨_, _, g, h1, h2, hall, hg, h⟩ | ⟨_, _, g, h1, h2, _, hg, _⟩ | ⟨_, _, hall, h⟩
  · exact absurd h0 ho
  · exact absurd h0 hd
  · refine ⟨g, sessionAfter hInstall (Nat.repr (g - 1))
        (checksOf (scanDir hInstall) 200006 (g - 200005)), h1, h2, hall, Or.inl hg, h,
      ?_, ?_, by omega⟩
    · rw [sessionAfter_checks]
      exact checksOf_eq _ _ _
    · rw [sessionAfter_checks]
      exact checksOf_length _ _ _
  · exact absurd hg (hnf g h1 h2)
  · have e : 200260 - 200005 = 255 := by omega
    refine ⟨200260, sessionAfter hInstall "0" (checksOf (scanDir hInstall) 200006 255),
      ?_, ?_, ?_, ?_, h, ?_, ?_, ?_⟩
    · omega
    · omega
    · exact fun v hv1 hv2 => hall v hv1 (by omega)
    · exact Or.inr ⟨rfl, hall 200260 (by omega) (by omega)⟩
    · rw [e, sessionAfter_checks]
      exact checksOf_eq _ _ _
    · rw [e, sessionAfter_checks]
      exact checksOf_length _ _ _
    · omega

/-- Witness of C10: with `200005To200006.sql` as the only script, two checks are made. -/
theorem scan_trace_witness :
    ∃ g s, 200006 ≤ g ∧ g ≤ 200260 ∧
      allPresent oneScript (scanDir sampleInstall) 200006 (g - 1) ∧
      (oneScript (scanDir sampleInstall) (scriptName g) = some false ∨
        (g = 200260 ∧ oneScript (scanDir sampleInstall) (scriptName g) = some true)) ∧
      GetHighestDbMigrationVersion sampleInstall oneScript = Flow.returned ERROR_SUCCESS s ∧
      s.checks
        = (List.range' 200006 (g - 200005)).map
            (fun v => (scanDir sampleInstall, scriptName v)) ∧
      s.checks.length = g - 200005 ∧ g - 200005 ≤ 255 :=
  scan_trace sampleInstall oneScript sample_older sample_dir (fun _ _ _ => by
    simp [oneScript])

theorem sample_noScripts_run :
    GetHighestDbMigrationVersion sampleInstall noScripts
      = Flow.returned ERROR_SUCCESS
          (sessionAfter sampleInstall (Nat.repr (200006 - 1))
            (checksOf (scanDir sampleInstall) 200006 (200006 - 200005))) :=
  run_gap sampleInstall noScripts sample_older sample_dir 200006 (by decide) (by decide)
    (fun v hv1 hv2 => absurd hv1 (by omega)) rfl

/-- C11: only three kinds of output.  Every call that returns has written exactly one value
to `MAX_DBMIG_VER`, and the value is `999999`, or `0`, or the decimal string of a number from
200005 to 200259; the call returns whenever `OLDER_FW_INSTALL_PATH` is empty or
`OLDDATAMIGRATIONDIR` is not; and the decimal string of a number from 200005 to 200259 is
neither `999999` nor `0`, and the number is less than 999999. -/
theorem three_kinds_of_output (hInstall : MSIHANDLE)
    (FileExists : String → String → Option Bool) :
    (∀ code s, GetHighestDbMigrationVersion hInstall FileExists = Flow.returned code s →
        ∃ value, s.writes = [("MAX_DBMIG_VER", value)] ∧ s.props "MAX_DBMIG_VER" = value ∧
          IsOutput value) ∧
      (hInstall "OLDER_FW_INSTALL_PATH" = "" ∨ hInstall "OLDDATAMIGRATIONDIR" ≠ "" →
        ∃ s value, GetHighestDbMigrationVersion hInstall FileExists
            = Flow.returned ERROR_SUCCESS s ∧
          s.writes = [("MAX_DBMIG_VER", value)] ∧ IsOutput value) ∧
      (∀ n, 200005 ≤ n → n ≤ 200259 →
        Nat.repr n ≠ "999999" ∧ Nat.repr n ≠ "0" ∧ n < 999999) := by
  refine ⟨?_, ?_, ?_⟩
  · intro code s hrun
    obtain ⟨_, value, checks, hs, hout⟩ := returned_shape hInstall FileExists code s hrun
    subst hs
    exact ⟨value, rfl, rfl, hout⟩
  · intro hdef
    obtain ⟨s, hrun⟩ := returns_when_defined hInstall FileExists hdef
    obtain ⟨_, value, checks, hs, hout⟩ := returned_shape hInstall FileExists _ s hrun
    subst hs
    exact ⟨_, value, hrun, rfl, hout⟩
  · intro n h1 h2
    refine ⟨?_, ?_, by omega⟩
    · intro h
      have e : Nat.repr n = Nat.repr 999999 := h
      have := repr_injective _ _ e
      omega
    · intro h
      have e : Nat.repr n = Nat.repr 0 := h
      have := repr_injective _ _ e
      omega

/-- Witness of C11: the run in a directory without scripts. -/
theorem three_kinds_of_output_witness :
    ∃ value,
      (sessionAfter sampleInstall (Nat.repr (200006 - 1))
          (checksOf (scanDir sampleInstall) 200006 (200006 - 200005))).writes
        = [("MAX_DBMIG_VER", value)] ∧
      (sessionAfter sampleInstall (Nat.repr (200006 - 1))
          (checksOf (scanDir sampleInstall) 200006 (200006 - 200005))).props "MAX_DBMIG_VER"
        = value ∧
      IsOutput value :=
  (three_kinds_of_output sampleInstall noScripts).1 ERROR_SUCCESS _ sample_noScripts_run

/-- C12: single write.  Whenever `OLDER_FW_INSTALL_PATH` is empty or `OLDDATAMIGRATIONDIR` is
not, the call returns having written the property store exactly once; the property written
is `MAX_DBMIG_VER`, and every other property has the value it had before, among them
`OLDER_FW_INSTALL_PATH` and `OLDDATAMIGRATIONDIR`. -/
theorem single_write (hInstall : MSIHANDLE) (FileExists : String → String → Option Bool)
    (hdef : hInstall "OLDER_FW_INSTALL_PATH" = "" ∨ hInstall "OLDDATAMIGRATIONDIR" ≠ "") :
    ∃ s value, GetHighestDbMigrationVersion hInstall FileExists
        = Flow.returned ERROR_SUCCESS s ∧
      s.writes = [("MAX_DBMIG_VER", value)] ∧ s.writes.length = 1 ∧
      (∀ name, name ≠ "MAX_DBMIG_VER" → s.props name = hInstall name) ∧
      s.props "OLDER_FW_INSTALL_PATH" = hInstall "OLDER_FW_INSTALL_PATH" ∧
      s.props "OLDDATAMIGRATIONDIR" = hInstall "OLDDATAMIGRATIONDIR" := by
  obtain ⟨s, hrun⟩ := returns_when_defined hInstall FileExists hdef
  obtain ⟨_, value, checks, hs, _⟩ := returned_shape hInstall FileExists _ s hrun
  subst hs
  have hframe : ∀ name, name ≠ "MAX_DBMIG_VER" →
      (sessionAfter hInstall value checks).props name = hInstall name := by
    intro name hname
    show (if name = "MAX_DBMIG_VER" then value else hInstall name) = hInstall name
    rw [if_neg hname]
  exact ⟨_, value, hrun, rfl, rfl, hframe, hframe _ (by decide), hframe _ (by decide)⟩

/-- Witness of C12: the sample session in a directory full of scripts. -/
theorem single_write_witness :
    ∃ s value, GetHighestDbMigrationVersion sampleInstall allScripts
        = Flow.returned ERROR_SUCCESS s ∧
      s.writes = [("MAX_DBMIG_VER", value)] ∧ s.writes.length = 1 ∧
      (∀ name, name ≠ "MAX_DBMIG_VER" → s.props name = sampleInstall name) ∧
      s.props "OLDER_FW_INSTALL_PATH" = sampleInstall "OLDER_FW_INSTALL_PATH" ∧
      s.props "OLDDATAMIGRATIONDIR" = sampleInstall "OLDDATAMIGRATIONDIR" :=
  single_write sampleInstall allScripts (Or.inr sample_dir)

/-- No call ends in the error branch of a formatting call, and none runs out of
iterations. -/
theorem never_invalidParameter (hInstall : MSIHANDLE)
    (FileExists : String → String → Option Bool) :
    (∀ s, GetHighestDbMigrationVersion hInstall FileExists ≠ Flow.invalidParameter s) ∧
      GetHighestDbMigrationVersion hInstall FileExists ≠ Flow.outOfFuel := by
  rcases run_cases hInstall FileExists with ⟨_, h⟩ | ⟨_, _, h⟩ | ⟨_, _, g, _, _, _, _, h⟩ |
    ⟨_, _, g, _, _, _, _, h⟩ | ⟨_, _, _, h⟩ <;>
  · rw [h]
    exact ⟨fun s hs => Flow.noConfusion hs, fun hs => Flow.noConfusion hs⟩

/-- C13: the formatting buffers suffice.  For every candidate `iMig` from 200006 to 200260
the file name has 18 characters and, with its terminating zero, fits the buffer of
`kFileNameLength` = 19 elements; the decimal string of `iMig - 1` has 6 characters and, with
its terminating zero, fits the buffer of `kDataMigVersion` = 7 elements; the unsigned
`iMig - 1` is the true difference; and no call ends in the error branch of a formatting
call. -/
theorem formatting_buffers_suffice (iMig : Nat) (h1 : 200006 ≤ iMig) (h2 : iMig ≤ 200260) :
    (∃ name, stprintf_s kFileNameLength "%uTo%u.sql" [wordSub iMig 1, iMig] = some name ∧
        name.length = 18 ∧ name.length + 1 ≤ kFileNameLength ∧ kFileNameLength = 19) ∧
      (∃ version, stprintf_s kDataMigVersion "%u" [wordSub iMig 1] = some version ∧
        version = Nat.repr (iMig - 1) ∧ version.length = 6 ∧
        version.length + 1 ≤ kDataMigVersion ∧ kDataMigVersion = 7) ∧
      ((wordSub iMig 1 : Nat) : Int) = (iMig : Int) - 1 ∧
      (∀ (hInstall : MSIHANDLE) (FileExists : String → String → Option Bool) (s : Session),
        GetHighestDbMigrationVersion hInstall FileExists ≠ Flow.invalidParameter s) := by
  have hs : wordSub iMig 1 = iMig - 1 := wordSub_one iMig (by omega) (by unfold wordModulus; omega)
  have hn := scriptName_length iMig h1 h2
  have hv := repr_length_six (iMig - 1) (by omega) (by omega)
  refine ⟨⟨scriptName iMig, fileName_ok iMig h1 h2, hn, ?_, rfl⟩,
    ⟨Nat.repr (iMig - 1), version_ok iMig h1 h2, rfl, hv, ?_, rfl⟩, ?_,
    fun hInstall FileExists => (never_invalidParameter hInstall FileExists).1⟩
  · rw [hn]
    decide
  · rw [hv]
    decide
  · rw [hs]
    omega

/-- Witness of C13: the last candidate. -/
theorem formatting_buffers_suffice_witness :
    ∃ name, stprintf_s kFileNameLength "%uTo%u.sql" [wordSub 200260 1, 200260] = some name ∧
      name.length = 18 ∧ name.length + 1 ≤ kFileNameLength ∧ kFileNameLength = 19 :=
  (formatting_buffers_suffice 200260 (by decide) (by decide)).1

/-- C14: the read of the final character is in bounds exactly when the directory is not
empty.  In a call with `OLDER_FW_INSTALL_PATH` not empty, the index `_tcslen(psz) - 1`
computed in `size_t` is less than the length of the string if and only if
`OLDDATAMIGRATIONDIR` is not empty; with `OLDDATAMIGRATIONDIR` empty the index is `SIZE_MAX`
and the call ends in the access outside the string, without writing `999999`; with
`OLDDATAMIGRATIONDIR` not empty the call returns. -/
theorem final_character_read (hInstall : MSIHANDLE)
    (FileExists : String → String → Option Bool)
    (ho : hInstall "OLDER_FW_INSTALL_PATH" ≠ "") :
    (wordSub (oldDataMigrationDir hInstall).length 1 < (oldDataMigrationDir hInstall).length
        ↔ hInstall "OLDDATAMIGRATIONDIR" ≠ "") ∧
      ((removeFinalBackslash (oldDataMigrationDir hInstall)).isSome
        ↔ hInstall "OLDDATAMIGRATIONDIR" ≠ "") ∧
      (hInstall "OLDDATAMIGRATIONDIR" = "" →
        wordSub (oldDataMigrationDir hInstall).length 1 = wordModulus - 1 ∧
        GetHighestDbMigrationVersion hInstall FileExists
          = Flow.outOfBounds (Session.start hInstall)) ∧
      (hInstall "OLDDATAMIGRATIONDIR" ≠ "" →
        ∃ s, GetHighestDbMigrationVersion hInstall FileExists
          = Flow.returned ERROR_SUCCESS s) := by
  have hlen := dir_buffer_length hInstall
  have hemp := dir_buffer_empty hInstall
  refine ⟨?_, ?_, ?_, fun hd => returns_when_defined hInstall FileExists (Or.inr hd)⟩
  · constructor
    · intro hlt hd
      rw [hemp.2 hd] at hlt
      exact absurd hlt (by decide)
    · intro hd
      have hne : oldDataMigrationDir hInstall ≠ "" := mt hemp.1 hd
      have hpos : 0 < (oldDataMigrationDir hInstall).length := by
        rcases hl : (oldDataMigrationDir hInstall).data with _ | ⟨c, l⟩
        · exact absurd ((string_eq_empty_iff _).2 hl) hne
        · show 0 < (oldDataMigrationDir hInstall).data.length
          rw [hl]
          simp
      rw [wordSub_one _ hpos hlen]
      omega
  · constructor
    · intro hsome hd
      rw [hemp.2 hd, removeFinalBackslash_empty] at hsome
      exact absurd hsome (by decide)
    · intro hd
      rw [removeFinalBackslash_eq _ (mt hemp.1 hd) hlen]
      rfl
  · intro hd
    refine ⟨?_, run_bare hInstall FileExists ho hd⟩
    rw [hemp.2 hd]
    exact wordSub_one_zero

/-- Witness of C14: an older installation without a data migration directory. -/
theorem final_character_read_witness :
    wordSub (oldDataMigrationDir bareInstall).length 1 = wordModulus - 1 ∧
      GetHighestDbMigrationVersion bareInstall noScripts
        = Flow.outOfBounds (Session.start bareInstall) :=
  (final_character_read bareInstall noScripts (by decide)).2.2.1 (by decide)

/-- The run in a directory whose checks never raise and which misses a candidate script. -/
theorem run_with_gap (hInstall : MSIHANDLE) (A : String → String → Bool)
    (ho : hInstall "OLDER_FW_INSTALL_PATH" ≠ "") (hd : hInstall "OLDDATAMIGRATIONDIR" ≠ "")
    (hgap : ∃ v, 200006 ≤ v ∧ v ≤ 200260 ∧ A (scanDir hInstall) (scriptName v) = false) :
    ∃ g, 200006 ≤ g ∧ g ≤ 200260 ∧
      (∀ v, 200006 ≤ v → v < g → A (scanDir hInstall) (scriptName v) = true) ∧
      A (scanDir hInstall) (scriptName g) = false ∧
      GetHighestDbMigrationVersion hInstall (fun d f => some (A d f))
        = Flow.returned ERROR_SUCCESS
            (sessionAfter hInstall (Nat.repr (g - 1))
              (checksOf (scanDir hInstall) 200006 (g - 200005))) := by
  rcases run_cases hInstall (fun d f => some (A d f)) with ⟨h0, _⟩ | ⟨_, h0, _⟩ |
    ⟨_, _, g, h1, h2, hall, hg, h⟩ | ⟨_, _, g, _, _, _, hg, _⟩ | ⟨_, _, hall, _⟩
  · exact absurd h0 ho
  · exact absurd h0 hd
  · exact ⟨g, h1, h2, fun v hv1 hv2 => Option.some.inj (hall v hv1 (by omega)),
      Option.some.inj hg, h⟩
  · exact Option.noConfusion hg
  · obtain ⟨v, hv1, hv2, hv⟩ := hgap
    have := Option.some.inj (hall v hv1 hv2)
    rw [hv] at this
    exact Bool.noConfusion this

/-- C15: monotonicity below the top of the range.  Let `A` and `B` be two directory states
under the same properties, `OLDER_FW_INSTALL_PATH` and `OLDDATAMIGRATIONDIR` not empty, such
that every candidate script that exists in `A` exists in `B`, and `B` misses a candidate
script.  Then the call reports a version `a` for `A` and a version `b` for `B` with `a ≤ b`.
Without the gap in `B` this fails: for a directory without scripts the call writes `200005`,
for a directory with all scripts it writes `0`. -/
theorem monotone_below_top (hInstall : MSIHANDLE) (A B : String → String → Bool)
    (ho : hInstall "OLDER_FW_INSTALL_PATH" ≠ "") (hd : hInstall "OLDDATAMIGRATIONDIR" ≠ "")
    (hsub : ∀ v, 200006 ≤ v → v ≤ 200260 →
      A (scanDir hInstall) (scriptName v) = true → B (scanDir hInstall) (scriptName v) = true)
    (hgap : ∃ v, 200006 ≤ v ∧ v ≤ 200260 ∧ B (scanDir hInstall) (scriptName v) = false) :
    (∃ a b, GetHighestDbMigrationVersion hInstall (fun d f => some (A d f))
          = Flow.returned ERROR_SUCCESS
              (sessionAfter hInstall (Nat.repr a)
                (checksOf (scanDir hInstall) 200006 (a - 200004))) ∧
        GetHighestDbMigrationVersion hInstall (fun d f => some (B d f))
          = Flow.returned ERROR_SUCCESS
              (sessionAfter hInstall (Nat.repr b)
                (checksOf (scanDir hInstall) 200006 (b - 200004))) ∧
        a ≤ b ∧ 200005 ≤ a ∧ b ≤ 200259) ∧
      (GetHighestDbMigrationVersion sampleInstall (fun _ _ => some false)
          = Flow.returned ERROR_SUCCESS
              (sessionAfter sampleInstall "200005"
                [("C:\\FW\\DataMigration", "200005To200006.sql")]) ∧
        GetHighestDbMigrationVersion sampleInstall (fun _ _ => some true)
          = Flow.returned ERROR_SUCCESS
              (sessionAfter sampleInstall "0" (checksOf (scanDir sampleInstall) 200006 255))) := by
  constructor
  · obtain ⟨gB, hB1, hB2, hBall, hBg, hBrun⟩ := run_with_gap hInstall B ho hd hgap
    have hgapA : ∃ v, 200006 ≤ v ∧ v ≤ 200260 ∧ A (scanDir hInstall) (scriptName v) = false := by
      refine ⟨gB, hB1, hB2, ?_⟩
      cases hA : A (scanDir hInstall) (scriptName gB)
      · rfl
      · have := hsub gB hB1 hB2 hA
        rw [hBg] at this
        exact Bool.noConfusion this
    obtain ⟨gA, hA1, hA2, hAall, hAg, hArun⟩ := run_with_gap hInstall A ho hd hgapA
    have hle : gA ≤ gB := by
      by_contra hlt
      have hpres := hsub gB hB1 hB2 (hAall gB hB1 (by omega))
      rw [hBg] at hpres
      exact Bool.noConfusion hpres
    refine ⟨gA - 1, gB - 1, ?_, ?_, by omega, by omega, by omega⟩
    · rw [show gA - 1 - 200004 = gA - 200005 by omega]
      exact hArun
    · rw [show gB - 1 - 200004 = gB - 200005 by omega]
      exact hBrun
  · exact ⟨run_gap sampleInstall _ sample_older sample_dir 200006 (by decide) (by decide)
        (fun v hv1 hv2 => absurd hv1 (by omega)) rfl,
      run_full sampleInstall _ sample_older sample_dir (fun _ _ _ => rfl)⟩

/-- Witness of C15: no script against `200005To200006.sql` alone. -/
theorem monotone_below_top_witness :
    ∃ a b, GetHighestDbMigrationVersion sampleInstall (fun d f => some ((fun _ _ => false) d f))
          = Flow.returned ERROR_SUCCESS
              (sessionAfter sampleInstall (Nat.repr a)
                (checksOf (scanDir sampleInstall) 200006 (a - 200004))) ∧
        GetHighestDbMigrationVersion sampleInstall
            (fun d f => some ((fun _ f => f == "200005To200006.sql") d f))
          = Flow.returned ERROR_SUCCESS
              (sessionAfter sampleInstall (Nat.repr b)
                (checksOf (scanDir sampleInstall) 200006 (b - 200004))) ∧
        a ≤ b ∧ 200005 ≤ a ∧ b ≤ 200259 :=
  (monotone_below_top sampleInstall (fun _ _ => false) (fun _ f => f == "200005To200006.sql")
    sample_older sample_dir (fun _ _ _ h => Bool.noConfusion h)
    ⟨200007, by decide, by decide, by decide⟩).1

end FwInstaller
